import Mathlib

/-!
# Dell K2 dock power-delivery sub-device (`plugins/dell-k2/fu-dell-k2-pd.c`)

A shallow embedding of the PD device of the dell-k2 plugin: construction,
`setup`, `write_firmware`, `set_progress` and `convert_version`.

Conventions.
* `guint8`, `guint32`, `guint64` are `Nat`, reduced `% 2^w` where C truncates.
* A `GError **error` out-parameter is an `Option GError` slot in the result,
  next to the `gboolean` return value.
* Pointers to objects that a function may change (`FuDevice *`, `FuProgress *`,
  the proxy) become values passed in and handed back.
* `g_debug` lines and `g_return_val_if_fail` argument checks (the arguments are
  well-typed values here) have no counterpart.
-/

namespace DellK2Pd

/-! ## Data model -/

/-- A GLib error value: numeric code and message. -/
structure GError where
  code : Nat
  message : String
deriving DecidableEq, Repr

/-- An immutable byte buffer (`GBytes`). -/
abbrev GBytes := List (Fin 256)

/-- Host byte order, `G_BYTE_ORDER` of the GLib configuration. -/
inductive GByteOrder where
  | G_LITTLE_ENDIAN
  | G_BIG_ENDIAN
deriving DecidableEq, Repr

/-- The `FwupdStatus` values this file uses. -/
inductive FwupdStatus where
  | FWUPD_STATUS_DEVICE_RESTART
  | FWUPD_STATUS_DEVICE_WRITE
  | FWUPD_STATUS_DEVICE_BUSY
deriving DecidableEq, Repr

/-- The `FwupdVersionFormat` values this file uses. -/
inductive FwupdVersionFormat where
  | FWUPD_VERSION_FORMAT_UNKNOWN
  | FWUPD_VERSION_FORMAT_QUAD
deriving DecidableEq, Repr

/-- One step declared with `fu_progress_add_step (status, value, name)`. -/
structure FuProgressStep where
  status : FwupdStatus
  value : Nat
  name : String
deriving DecidableEq, Repr

/-- The progress object as this file drives it: its id, the declared steps in
declaration order, and the `(done, total)` pairs passed to
`fu_progress_set_percentage_full`, oldest first. -/
structure FuProgress where
  id : Option String
  steps : List FuProgressStep
  percentage_full : List (Nat × Nat)
deriving DecidableEq, Repr

/-- The parts of the `FuDevice` parent instance this file reads or writes. -/
structure FuDevice where
  name : Option String
  logical_id : Option String
  instance_hash : List (String × Nat)
  instance_ids : List String
  version_raw : Nat
  version_format : FwupdVersionFormat
  protocols : List String
  vendor_ids : List String
  flags : List String
  private_flags : List String
  firmware_gtype : Option String
deriving DecidableEq, Repr

/-- Source: `struct _FuDellK2Pd`. -/
structure FuDellK2Pd where
  parent_instance : FuDevice
  blob_version_offset : Nat
  pd_subtype : Nat
  pd_instance : Nat
  pd_identifier : Nat
deriving DecidableEq, Repr

/-- The firmware artifact: what `fu_firmware_get_bytes` yields (bytes or an
error) and the advisory version string. -/
structure FuFirmware where
  get_bytes : Except GError GBytes
  version : Option String

/-- The proxy (the dock EC device) as seen from this file, over a transport
state `σ`: the three reads and the HID write primitive. A write returns the
next transport state and `none` on success or `some e` on failure. -/
structure Proxy (σ : Type) where
  fu_dell_k2_ec_get_dock_type : σ → Nat
  fu_dell_k2_ec_get_dock_sku : σ → Nat
  fu_dell_k2_ec_get_pd_version : σ → Nat → Nat → Nat
  fu_dell_k2_ec_hid_write : σ → GBytes → σ × Option GError

/-- Declarations used by this file that live in other files: two constants of
`fu-dell-k2-ec-struct.h`/`fu-dell-k2-common.h`, the host byte order, the device
name table, the wire packager, the instance-id builder of `FuDevice` (given the
device's instance hash, the subsystem and the key order) and the version
formatter. They are parameters of the embedding. -/
structure Env where
  DELL_K2_EC_DEV_TYPE_PD : Nat
  DELL_K2_EC_HID_DATA_PAGE_SZ : Nat
  G_BYTE_ORDER : GByteOrder
  fu_dell_k2_ec_devicetype_to_str : Nat → Nat → Nat → String
  fu_dell_k2_ec_hid_fwup_pkg_new : GBytes → Nat → Nat → GBytes
  fu_device_build_instance_id : List (String × Nat) → String → List String → Except GError String
  fu_version_from_uint32_hex : Nat → FwupdVersionFormat → String

/-! ## FuDevice and FuProgress primitives -/

/-- `fu_device_add_instance_u8`: set `key` to `value` in the instance hash. -/
def fu_device_add_instance_u8 (d : FuDevice) (key : String) (value : Nat) : FuDevice :=
  { d with instance_hash := (d.instance_hash.filter (fun kv => kv.1 != key)) ++ [(key, value % 256)] }

/-- `fu_progress_set_id`. -/
def fu_progress_set_id (p : FuProgress) (id : String) : FuProgress :=
  { p with id := some id }

/-- `fu_progress_add_step`. -/
def fu_progress_add_step (p : FuProgress) (status : FwupdStatus) (value : Nat) (name : String) :
    FuProgress :=
  { p with steps := p.steps ++ [⟨status, value, name⟩] }

/-- `fu_progress_set_percentage_full`: one report `(done, total)`. -/
def fu_progress_set_percentage_full (p : FuProgress) (done total : Nat) : FuProgress :=
  { p with percentage_full := p.percentage_full ++ [(done, total)] }

/-! ## Byte order -/

/-- `GUINT32_SWAP_LE_BE`: exchange byte 0 with byte 3 and byte 1 with byte 2. -/
def GUINT32_SWAP_LE_BE (v : Nat) : Nat :=
  (v % 256) * 16777216 + (v / 256 % 256) * 65536 + (v / 65536 % 256) * 256 + (v / 16777216 % 256)

/-- `GUINT32_FROM_BE`: big-endian to host order; a swap on a little-endian host,
the 32-bit value itself on a big-endian host. -/
def GUINT32_FROM_BE (order : GByteOrder) (v : Nat) : Nat :=
  match order with
  | .G_LITTLE_ENDIAN => GUINT32_SWAP_LE_BE v
  | .G_BIG_ENDIAN => v % 4294967296

/-! ## Chunk array -/

/-- A chunk array over a blob with a packet size (`addr_start` is 0 here). -/
structure FuChunkArray where
  blob : GBytes
  packet_sz : Nat
deriving DecidableEq, Repr

/-- Modelled from the spec: `fu_chunk_array_new_from_bytes` of
`libfwupdplugin/fu-chunk-array.c`, which is not among the sources here. It
partitions the blob into chunks of a fixed maximum size. -/
def fu_chunk_array_new_from_bytes (blob : GBytes) (_addr_start : Nat) (packet_sz : Nat) :
    FuChunkArray :=
  ⟨blob, packet_sz⟩

/-- Modelled from the spec: `fu_chunk_array_length` of
`libfwupdplugin/fu-chunk-array.c`: the full packets plus one more chunk when a
remainder is left. -/
def fu_chunk_array_length (c : FuChunkArray) : Nat :=
  c.blob.length / c.packet_sz + (if c.blob.length % c.packet_sz = 0 then 0 else 1)

/-- Modelled from the spec: `fu_chunk_array_index` followed by
`fu_chunk_get_bytes`, of `libfwupdplugin`: chunk `idx` is the contiguous slice
that starts at `idx * packet_sz` and has the packet size, or what is left of the
blob when that is less; an index past the blob is an error. -/
def fu_chunk_array_index (c : FuChunkArray) (idx : Nat) : Except GError GBytes :=
  if idx * c.packet_sz < c.blob.length then
    .ok ((c.blob.drop (idx * c.packet_sz)).take (min c.packet_sz (c.blob.length - idx * c.packet_sz)))
  else
    .error ⟨1, "index invalid"⟩

/-! ## The device operations -/

/-- Source: `fu_dell_k2_pd_init`. -/
def fu_dell_k2_pd_init (self : FuDellK2Pd) : FuDellK2Pd :=
  { self with parent_instance :=
      { self.parent_instance with
        protocols := self.parent_instance.protocols ++ ["com.dell.k2"]
        vendor_ids := self.parent_instance.vendor_ids ++ ["USB:0x413C"]
        flags := self.parent_instance.flags ++
          ["FWUPD_DEVICE_FLAG_UPDATABLE", "FWUPD_DEVICE_FLAG_SIGNED_PAYLOAD"]
        private_flags := self.parent_instance.private_flags ++
          ["FU_DEVICE_PRIVATE_FLAG_SKIPS_RESTART", "FU_DEVICE_PRIVATE_FLAG_EXPLICIT_ORDER",
           "FU_DEVICE_PRIVATE_FLAG_USE_PROXY_FOR_OPEN"]
        version_format := .FWUPD_VERSION_FORMAT_QUAD
        firmware_gtype := some "FU_TYPE_DELL_K2_PD_FIRMWARE" } }

/-- A zero-filled object, as `g_object_new` allocates it before `init` runs. -/
def g_object_new_zeroed : FuDellK2Pd :=
  { parent_instance :=
      { name := none, logical_id := none, instance_hash := [], instance_ids := [],
        version_raw := 0, version_format := .FWUPD_VERSION_FORMAT_UNKNOWN, protocols := [],
        vendor_ids := [], flags := [], private_flags := [], firmware_gtype := none }
    blob_version_offset := 0
    pd_subtype := 0
    pd_instance := 0
    pd_identifier := 0 }

/-- Source: `fu_dell_k2_pd_new`. `subtype` and `instance` are `guint8`
arguments; `instance + 1` is computed in `int` and stored into a `guint8`. -/
def fu_dell_k2_pd_new (subtype inst : Nat) : FuDellK2Pd :=
  { fu_dell_k2_pd_init g_object_new_zeroed with
    pd_subtype := subtype
    pd_instance := inst
    pd_identifier := (inst + 1) % 256 }

/-- Source: `fu_dell_k2_pd_convert_version`. The `guint64` argument is narrowed
to the `guint32` parameter of `fu_version_from_uint32_hex`. The device is handed
back unchanged. -/
def fu_dell_k2_pd_convert_version (x : Env) (self : FuDellK2Pd) (version_raw : Nat) :
    FuDellK2Pd × String :=
  (self, x.fu_version_from_uint32_hex (version_raw % 4294967296) self.parent_instance.version_format)

/-- Result of `fu_dell_k2_pd_setup`: return value, error slot, device after. -/
structure SetupResult where
  ret : Bool
  error : Option GError
  self : FuDellK2Pd
deriving DecidableEq, Repr

/-- Source: `fu_dell_k2_pd_setup`. The value `fu_device_build_instance_id`
returns is not looked at; on its failure the error slot is filled and the
function goes on to the version and returns `TRUE`. -/
def fu_dell_k2_pd_setup {σ : Type} (x : Env) (px : Proxy σ) (ec : σ) (self : FuDellK2Pd) :
    SetupResult :=
  let dev_type := x.DELL_K2_EC_DEV_TYPE_PD % 256
  -- name
  let devname := x.fu_dell_k2_ec_devicetype_to_str dev_type self.pd_subtype self.pd_instance
  let d := { self.parent_instance with name := some devname }
  let d := { d with logical_id := some devname }
  -- instance ID
  let dock_type := px.fu_dell_k2_ec_get_dock_type ec
  let dock_sku := px.fu_dell_k2_ec_get_dock_sku ec
  let d := fu_device_add_instance_u8 d "DOCKTYPE" dock_type
  let d := fu_device_add_instance_u8 d "DOCKSKU" dock_sku
  let d := fu_device_add_instance_u8 d "DEVTYPE" dev_type
  let d := fu_device_add_instance_u8 d "INST" self.pd_instance
  let built := x.fu_device_build_instance_id d.instance_hash "EC"
    ["DOCKTYPE", "DOCKSKU", "DEVTYPE", "INST"]
  let (d, error) : FuDevice × Option GError :=
    match built with
    | .ok id => ({ d with instance_ids := d.instance_ids ++ [id] }, none)
    | .error e => (d, some e)
  -- version
  let raw_version := px.fu_dell_k2_ec_get_pd_version ec self.pd_subtype self.pd_instance % 4294967296
  let d := { d with version_raw := GUINT32_FROM_BE x.G_BYTE_ORDER raw_version }
  { ret := true, error := error, self := { self with parent_instance := d } }

/-- Result of `fu_dell_k2_pd_write`: return value, error slot, the device, the
proxy transport state and the progress object after the call, and the buffers
handed to `fu_dell_k2_ec_hid_write` during the call, in call order. -/
structure WriteResult (σ : Type) where
  ret : Bool
  error : Option GError
  self : FuDellK2Pd
  ec : σ
  progress : FuProgress
  hid_log : List GBytes

/-- The `for` loop of `fu_dell_k2_pd_write`, entered at index `i` with `todo`
iterations left (`todo = fu_chunk_array_length chunks - i`, so the guard
`i < fu_chunk_array_length (chunks)` holds exactly while `todo` is not 0). -/
def fu_dell_k2_pd_write_loop {σ : Type} (px : Proxy σ) (self : FuDellK2Pd) (chunks : FuChunkArray) :
    Nat → Nat → σ → FuProgress → List GBytes → WriteResult σ
  | 0, _, ec, progress, log =>
    -- success
    { ret := true, error := none, self := self, ec := ec, progress := progress, hid_log := log }
  | todo + 1, i, ec, progress, log =>
    match fu_chunk_array_index chunks i with
    | .error e =>
      { ret := false, error := some e, self := self, ec := ec, progress := progress,
        hid_log := log }
    | .ok chk =>
      match px.fu_dell_k2_ec_hid_write ec chk with
      | (ec1, some e) =>
        { ret := false, error := some e, self := self, ec := ec1, progress := progress,
          hid_log := log ++ [chk] }
      | (ec1, none) =>
        -- update progress
        fu_dell_k2_pd_write_loop px self chunks todo (i + 1) ec1
          (fu_progress_set_percentage_full progress (i + 1) (fu_chunk_array_length chunks))
          (log ++ [chk])

/-- Source: `fu_dell_k2_pd_write`. -/
def fu_dell_k2_pd_write {σ : Type} (x : Env) (px : Proxy σ) (ec : σ) (self : FuDellK2Pd)
    (firmware : FuFirmware) (progress : FuProgress) : WriteResult σ :=
  -- progress
  let progress := fu_progress_set_id progress "fu-dell-k2-pd.c:86"
  -- get default firmware image
  match firmware.get_bytes with
  | .error e =>
    { ret := false, error := some e, self := self, ec := ec, progress := progress, hid_log := [] }
  | .ok fw =>
    -- construct writing buffer
    let fw_whdr := x.fu_dell_k2_ec_hid_fwup_pkg_new fw (x.DELL_K2_EC_DEV_TYPE_PD % 256)
      self.pd_identifier
    -- prepare the chunks
    let chunks := fu_chunk_array_new_from_bytes fw_whdr 0 x.DELL_K2_EC_HID_DATA_PAGE_SZ
    -- write to device
    fu_dell_k2_pd_write_loop px self chunks (fu_chunk_array_length chunks) 0 ec progress []

/-- Source: `fu_dell_k2_pd_set_progress`. The device is handed back unchanged. -/
def fu_dell_k2_pd_set_progress (self : FuDellK2Pd) (progress : FuProgress) :
    FuDellK2Pd × FuProgress :=
  let progress := fu_progress_set_id progress "fu-dell-k2-pd.c:134"
  let progress := fu_progress_add_step progress .FWUPD_STATUS_DEVICE_RESTART 0 "detach"
  let progress := fu_progress_add_step progress .FWUPD_STATUS_DEVICE_WRITE 100 "write"
  let progress := fu_progress_add_step progress .FWUPD_STATUS_DEVICE_RESTART 0 "attach"
  let progress := fu_progress_add_step progress .FWUPD_STATUS_DEVICE_BUSY 0 "reload"
  (self, progress)

/-! ## Observations used by the statements -/

/-- A later operation on a constructed device, with its other arguments. -/
inductive Call (σ : Type) where
  | setup (px : Proxy σ) (ec : σ)
  | write (px : Proxy σ) (ec : σ) (firmware : FuFirmware) (progress : FuProgress)
  | set_progress (progress : FuProgress)
  | convert_version (version_raw : Nat)

/-- The device after one operation. -/
def Call.run {σ : Type} (x : Env) (self : FuDellK2Pd) : Call σ → FuDellK2Pd
  | .setup px ec => (fu_dell_k2_pd_setup x px ec self).self
  | .write px ec firmware progress => (fu_dell_k2_pd_write x px ec self firmware progress).self
  | .set_progress progress => (fu_dell_k2_pd_set_progress self progress).1
  | .convert_version version_raw => (fu_dell_k2_pd_convert_version x self version_raw).1

/-- Bytes of chunk `i` (empty when the index is rejected). -/
def chunk_bytes (c : FuChunkArray) (i : Nat) : GBytes :=
  match fu_chunk_array_index c i with
  | .ok b => b
  | .error _ => []

/-- Transport state of the proxy once chunks `0 .. k-1` have been handed to its
write primitive in index order, starting from `ec`. -/
def hid_state {σ : Type} (px : Proxy σ) (ec : σ) (c : FuChunkArray) : Nat → σ
  | 0 => ec
  | k + 1 => (px.fu_dell_k2_ec_hid_write (hid_state px ec c k) (chunk_bytes c k)).1

/-- What the proxy answers to the write of chunk `k` when chunks `0 .. k-1`
were written before it: `none` for success, `some e` for failure. -/
def hid_outcome {σ : Type} (px : Proxy σ) (ec : σ) (c : FuChunkArray) (k : Nat) : Option GError :=
  (px.fu_dell_k2_ec_hid_write (hid_state px ec c k) (chunk_bytes c k)).2

/-- The chunk array `fu_dell_k2_pd_write` builds for firmware bytes `fw`. -/
def write_chunks (x : Env) (self : FuDellK2Pd) (fw : GBytes) : FuChunkArray :=
  fu_chunk_array_new_from_bytes
    (x.fu_dell_k2_ec_hid_fwup_pkg_new fw (x.DELL_K2_EC_DEV_TYPE_PD % 256) self.pd_identifier)
    0 x.DELL_K2_EC_HID_DATA_PAGE_SZ

/-! ## Concrete inputs -/

/-- A sample packager: a three-byte header, then the firmware bytes. -/
def samplePkg (fw : GBytes) (dev_type identifier : Nat) : GBytes :=
  [Fin.ofNat 0xAB, Fin.ofNat dev_type, Fin.ofNat identifier] ++ fw

/-- A builder that rejects every attribute tuple. -/
def rejectingBuilder (_hash : List (String × Nat)) (_subsystem : String) (_keys : List String) :
    Except GError String :=
  .error ⟨2, "instance id rejected"⟩

/-- A builder that accepts every attribute tuple. -/
def acceptingBuilder (_hash : List (String × Nat)) (subsystem : String) (_keys : List String) :
    Except GError String :=
  .ok subsystem

/-- A little-endian host with page size 4. -/
def sampleEnv : Env :=
  { DELL_K2_EC_DEV_TYPE_PD := 1
    DELL_K2_EC_HID_DATA_PAGE_SZ := 4
    G_BYTE_ORDER := .G_LITTLE_ENDIAN
    fu_dell_k2_ec_devicetype_to_str := fun _ _ _ => "PD"
    fu_dell_k2_ec_hid_fwup_pkg_new := samplePkg
    fu_device_build_instance_id := acceptingBuilder
    fu_version_from_uint32_hex := fun _ _ => "0.0.0.0" }

/-- The sample host, big-endian. -/
def sampleEnvBE : Env := { sampleEnv with G_BYTE_ORDER := .G_BIG_ENDIAN }

/-- The sample host with a builder that rejects. -/
def sampleEnvReject : Env := { sampleEnv with fu_device_build_instance_id := rejectingBuilder }

/-- A stateless proxy that reports version `0x01020304` and accepts every
write. -/
def sampleProxy : Proxy Unit :=
  { fu_dell_k2_ec_get_dock_type := fun _ => 4
    fu_dell_k2_ec_get_dock_sku := fun _ => 1
    fu_dell_k2_ec_get_pd_version := fun _ _ _ => 0x01020304
    fu_dell_k2_ec_hid_write := fun _ _ => ((), none) }

/-- A proxy that counts the writes it has seen and fails the write numbered
`bad` (0-based), accepting the others. -/
def failingProxy (bad : Nat) : Proxy Nat :=
  { fu_dell_k2_ec_get_dock_type := fun _ => 4
    fu_dell_k2_ec_get_dock_sku := fun _ => 1
    fu_dell_k2_ec_get_pd_version := fun _ _ _ => 0x01020304
    fu_dell_k2_ec_hid_write := fun n _ =>
      (n + 1, if n = bad then some ⟨3, "hid write failed"⟩ else none) }

/-- A fresh progress object. -/
def freshProgress : FuProgress := { id := none, steps := [], percentage_full := [] }

/-- A firmware artifact of seven bytes. -/
def sampleFirmware : FuFirmware :=
  { get_bytes := .ok [1, 2, 3, 4, 5, 6, 7], version := some "1.2.3.4" }

/-- A firmware artifact whose bytes cannot be extracted. -/
def brokenFirmware : FuFirmware :=
  { get_bytes := .error ⟨4, "no image data"⟩, version := none }

/-! ## Construction and identifier -/

theorem setup_keeps_fields {σ : Type} (x : Env) (px : Proxy σ) (ec : σ) (self : FuDellK2Pd) :
    (fu_dell_k2_pd_setup x px ec self).self.pd_subtype = self.pd_subtype ∧
    (fu_dell_k2_pd_setup x px ec self).self.pd_instance = self.pd_instance ∧
    (fu_dell_k2_pd_setup x px ec self).self.pd_identifier = self.pd_identifier := by
  simp [fu_dell_k2_pd_setup]

theorem write_loop_self {σ : Type} (px : Proxy σ) (self : FuDellK2Pd) (chunks : FuChunkArray)
    (todo i : Nat) (ec : σ) (progress : FuProgress) (log : List GBytes) :
    (fu_dell_k2_pd_write_loop px self chunks todo i ec progress log).self = self := by
  induction todo generalizing i ec progress log with
  | zero => rfl
  | succ n ih =>
    unfold fu_dell_k2_pd_write_loop
    split
    · rfl
    · split
      · rfl
      · exact ih _ _ _ _

theorem write_self {σ : Type} (x : Env) (px : Proxy σ) (ec : σ) (self : FuDellK2Pd)
    (firmware : FuFirmware) (progress : FuProgress) :
    (fu_dell_k2_pd_write x px ec self firmware progress).self = self := by
  unfold fu_dell_k2_pd_write
  split
  · rfl
  · exact write_loop_self _ _ _ _ _ _ _ _

theorem run_keeps_fields {σ : Type} (x : Env) (self : FuDellK2Pd) (c : Call σ) :
    (c.run x self).pd_subtype = self.pd_subtype ∧
    (c.run x self).pd_instance = self.pd_instance ∧
    (c.run x self).pd_identifier = self.pd_identifier := by
  cases c with
  | setup px ec => exact setup_keeps_fields x px ec self
  | write px ec firmware progress =>
    simp [Call.run, write_self]
  | set_progress progress => exact ⟨rfl, rfl, rfl⟩
  | convert_version v => exact ⟨rfl, rfl, rfl⟩

theorem foldl_run_keeps_fields {σ : Type} (x : Env) (calls : List (Call σ)) (self : FuDellK2Pd) :
    (calls.foldl (Call.run x) self).pd_subtype = self.pd_subtype ∧
    (calls.foldl (Call.run x) self).pd_instance = self.pd_instance ∧
    (calls.foldl (Call.run x) self).pd_identifier = self.pd_identifier := by
  induction calls generalizing self with
  | nil => exact ⟨rfl, rfl, rfl⟩
  | cons c cs ih =>
    obtain ⟨h1, h2, h3⟩ := run_keeps_fields x self c
    obtain ⟨k1, k2, k3⟩ := ih (c.run x self)
    simp only [List.foldl_cons]
    exact ⟨k1.trans h1, k2.trans h2, k3.trans h3⟩

/-- C8: for every instance in [0, 254] and every subtype, the constructed device
has `pd_identifier = instance + 1`, `pd_instance = instance` and
`pd_subtype = subtype`, and these three fields keep those values through every
sequence of later operations (setup, write, set_progress, convert_version). -/
theorem new_identifier_invariant {σ : Type} (x : Env) (subtype inst : Nat) (hi : inst ≤ 254)
    (calls : List (Call σ)) :
    (fu_dell_k2_pd_new subtype inst).pd_identifier = inst + 1 ∧
    (fu_dell_k2_pd_new subtype inst).pd_instance = inst ∧
    (fu_dell_k2_pd_new subtype inst).pd_subtype = subtype ∧
    (calls.foldl (Call.run x) (fu_dell_k2_pd_new subtype inst)).pd_identifier = inst + 1 ∧
    (calls.foldl (Call.run x) (fu_dell_k2_pd_new subtype inst)).pd_instance = inst ∧
    (calls.foldl (Call.run x) (fu_dell_k2_pd_new subtype inst)).pd_subtype = subtype := by
  have hid : (fu_dell_k2_pd_new subtype inst).pd_identifier = inst + 1 := by
    show (inst + 1) % 256 = inst + 1
    exact Nat.mod_eq_of_lt (by omega)
  obtain ⟨k1, k2, k3⟩ := foldl_run_keeps_fields x calls (fu_dell_k2_pd_new subtype inst)
  exact ⟨hid, rfl, rfl, k3.trans hid, k2, k1⟩

/-- Witness of C8 at subtype 0, instance 254, with a setup, a write, a
set_progress and a convert_version call. -/
theorem new_identifier_invariant_witness :
    254 ≤ 254 ∧
    (fu_dell_k2_pd_new 0 254).pd_identifier = 254 + 1 ∧
    (fu_dell_k2_pd_new 0 254).pd_instance = 254 ∧
    (fu_dell_k2_pd_new 0 254).pd_subtype = 0 ∧
    (([Call.setup sampleProxy (), Call.write sampleProxy () sampleFirmware freshProgress,
        Call.set_progress freshProgress, Call.convert_version 7].foldl (Call.run sampleEnv)
      (fu_dell_k2_pd_new 0 254)).pd_identifier = 254 + 1) ∧
    (([Call.setup sampleProxy (), Call.write sampleProxy () sampleFirmware freshProgress,
        Call.set_progress freshProgress, Call.convert_version 7].foldl (Call.run sampleEnv)
      (fu_dell_k2_pd_new 0 254)).pd_instance = 254) ∧
    (([Call.setup sampleProxy (), Call.write sampleProxy () sampleFirmware freshProgress,
        Call.set_progress freshProgress, Call.convert_version 7].foldl (Call.run sampleEnv)
      (fu_dell_k2_pd_new 0 254)).pd_subtype = 0) :=
  ⟨by decide, new_identifier_invariant sampleEnv 0 254 (by decide) _⟩

/-- C10: for every 8-bit instance the constructor stores
`pd_identifier = (instance + 1) mod 256`; instance 255 yields identifier 0, 255
is the only 8-bit instance whose identifier differs from `instance + 1`, and the
map from instance to identifier is injective on the 256 instances. -/
theorem new_identifier_wraps (subtype : Nat) :
    (∀ inst, inst < 256 → (fu_dell_k2_pd_new subtype inst).pd_identifier = (inst + 1) % 256) ∧
    (fu_dell_k2_pd_new subtype 255).pd_identifier = 0 ∧
    (∀ inst, inst < 256 →
      ((fu_dell_k2_pd_new subtype inst).pd_identifier ≠ inst + 1 ↔ inst = 255)) ∧
    (∀ i j, i < 256 → j < 256 →
      (fu_dell_k2_pd_new subtype i).pd_identifier = (fu_dell_k2_pd_new subtype j).pd_identifier →
      i = j) := by
  refine ⟨fun _ _ => rfl, rfl, ?_, ?_⟩
  · intro inst h
    show (inst + 1) % 256 ≠ inst + 1 ↔ inst = 255
    omega
  · intro i j hi hj h
    have h2 : (i + 1) % 256 = (j + 1) % 256 := h
    omega

/-- Witness of C10 at subtype 3: instances 254 and 255, and the pair 0, 255. -/
theorem new_identifier_wraps_witness :
    (fu_dell_k2_pd_new 3 254).pd_identifier = 255 ∧
    (fu_dell_k2_pd_new 3 255).pd_identifier = 0 ∧
    ((fu_dell_k2_pd_new 3 255).pd_identifier ≠ 255 + 1 ↔ 255 = 255) ∧
    ((fu_dell_k2_pd_new 3 0).pd_identifier = (fu_dell_k2_pd_new 3 255).pd_identifier →
      0 = 255) :=
  ⟨(new_identifier_wraps 3).1 254 (by decide), (new_identifier_wraps 3).2.1,
   (new_identifier_wraps 3).2.2.1 255 (by decide),
   (new_identifier_wraps 3).2.2.2 0 255 (by decide) (by decide)⟩

/-! ## Progress phases -/

/-- C9: `fu_dell_k2_pd_set_progress` appends exactly four steps, named detach,
write, attach, reload in that order, whatever the device; write has weight 100
and the other three weight 0, so the weights sum to 100. -/
theorem set_progress_four_phases (self : FuDellK2Pd) (progress : FuProgress) :
    (fu_dell_k2_pd_set_progress self progress).2.steps = progress.steps ++
      [⟨.FWUPD_STATUS_DEVICE_RESTART, 0, "detach"⟩, ⟨.FWUPD_STATUS_DEVICE_WRITE, 100, "write"⟩,
       ⟨.FWUPD_STATUS_DEVICE_RESTART, 0, "attach"⟩, ⟨.FWUPD_STATUS_DEVICE_BUSY, 0, "reload"⟩] ∧
    (fu_dell_k2_pd_set_progress self progress).2.steps.length = progress.steps.length + 4 ∧
    (((fu_dell_k2_pd_set_progress self progress).2.steps.drop progress.steps.length).map
      (fun s => s.name) = ["detach", "write", "attach", "reload"]) ∧
    (((fu_dell_k2_pd_set_progress self progress).2.steps.drop progress.steps.length).map
      (fun s => s.value) = [0, 100, 0, 0]) ∧
    ((((fu_dell_k2_pd_set_progress self progress).2.steps.drop progress.steps.length).map
      (fun s => s.value)).sum = 100) ∧
    (∀ other : FuDellK2Pd,
      (fu_dell_k2_pd_set_progress other progress).2 =
        (fu_dell_k2_pd_set_progress self progress).2) := by
  have h : (fu_dell_k2_pd_set_progress self progress).2.steps = progress.steps ++
      [⟨.FWUPD_STATUS_DEVICE_RESTART, 0, "detach"⟩, ⟨.FWUPD_STATUS_DEVICE_WRITE, 100, "write"⟩,
       ⟨.FWUPD_STATUS_DEVICE_RESTART, 0, "attach"⟩, ⟨.FWUPD_STATUS_DEVICE_BUSY, 0, "reload"⟩] := by
    simp [fu_dell_k2_pd_set_progress, fu_progress_add_step, fu_progress_set_id]
  refine ⟨h, ?_, ?_, ?_, ?_, fun _ => rfl⟩
  · rw [h]; simp
  · rw [h]; simp
  · rw [h]; simp
  · rw [h]; simp

/-! ## Setup -/

theorem swap_bytes_aux (b0 b1 b2 b3 : Nat) (h0 : b0 < 256) (h1 : b1 < 256) (h2 : b2 < 256)
    (h3 : b3 < 256) :
    (b0 * 16777216 + b1 * 65536 + b2 * 256 + b3) % 256 = b3 ∧
    (b0 * 16777216 + b1 * 65536 + b2 * 256 + b3) / 256 % 256 = b2 ∧
    (b0 * 16777216 + b1 * 65536 + b2 * 256 + b3) / 65536 % 256 = b1 ∧
    (b0 * 16777216 + b1 * 65536 + b2 * 256 + b3) / 16777216 % 256 = b0 := by
  refine ⟨by omega, by omega, by omega, by omega⟩

theorem swap_bytes (v : Nat) :
    GUINT32_SWAP_LE_BE v % 256 = v / 16777216 % 256 ∧
    GUINT32_SWAP_LE_BE v / 256 % 256 = v / 65536 % 256 ∧
    GUINT32_SWAP_LE_BE v / 65536 % 256 = v / 256 % 256 ∧
    GUINT32_SWAP_LE_BE v / 16777216 % 256 = v % 256 :=
  swap_bytes_aux (v % 256) (v / 256 % 256) (v / 65536 % 256) (v / 16777216 % 256)
    (Nat.mod_lt _ (by decide)) (Nat.mod_lt _ (by decide)) (Nat.mod_lt _ (by decide))
    (Nat.mod_lt _ (by decide))

theorem swap_swap (v : Nat) (hv : v < 4294967296) :
    GUINT32_SWAP_LE_BE (GUINT32_SWAP_LE_BE v) = v := by
  obtain ⟨h0, h1, h2, h3⟩ := swap_bytes v
  have e : GUINT32_SWAP_LE_BE (GUINT32_SWAP_LE_BE v) =
      (GUINT32_SWAP_LE_BE v % 256) * 16777216 + (GUINT32_SWAP_LE_BE v / 256 % 256) * 65536 +
        (GUINT32_SWAP_LE_BE v / 65536 % 256) * 256 + (GUINT32_SWAP_LE_BE v / 16777216 % 256) := rfl
  rw [e, h0, h1, h2, h3]
  omega

theorem setup_ret {σ : Type} (x : Env) (px : Proxy σ) (ec : σ) (self : FuDellK2Pd) :
    (fu_dell_k2_pd_setup x px ec self).ret = true := by
  simp [fu_dell_k2_pd_setup]

theorem setup_version {σ : Type} (x : Env) (px : Proxy σ) (ec : σ) (self : FuDellK2Pd) :
    (fu_dell_k2_pd_setup x px ec self).self.parent_instance.version_raw =
      GUINT32_FROM_BE x.G_BYTE_ORDER
        (px.fu_dell_k2_ec_get_pd_version ec self.pd_subtype self.pd_instance % 4294967296) := by
  simp [fu_dell_k2_pd_setup]

/-- C7 does not hold on a big-endian host: the proxy reports `0x01020304`,
setup succeeds and stores `0x01020304`, not the swapped `0x04030201`. -/
theorem setup_version_big_endian_counterexample :
    (fu_dell_k2_pd_setup sampleEnvBE sampleProxy () (fu_dell_k2_pd_new 0 0)).ret = true ∧
    sampleProxy.fu_dell_k2_ec_get_pd_version () 0 0 = 0x01020304 ∧
    (fu_dell_k2_pd_setup sampleEnvBE sampleProxy ()
      (fu_dell_k2_pd_new 0 0)).self.parent_instance.version_raw = 0x01020304 ∧
    GUINT32_SWAP_LE_BE 0x01020304 = 0x04030201 ∧
    (fu_dell_k2_pd_setup sampleEnvBE sampleProxy ()
      (fu_dell_k2_pd_new 0 0)).self.parent_instance.version_raw ≠
        GUINT32_SWAP_LE_BE 0x01020304 := by
  refine ⟨setup_ret _ _ _ _, rfl, ?_, by decide, ?_⟩
  · rw [setup_version]; decide
  · rw [setup_version]; decide

/-- C7, amended: for every 32-bit value `v` the proxy returns for the device's
(subtype, instance) pair, setup succeeds and stores `GUINT32_FROM_BE v`: on a
little-endian host the byte-swapped form of `v` (byte 0 exchanged with byte 3,
byte 1 with byte 2), on a big-endian host `v` itself; the swap is an
involution. -/
theorem setup_version_from_be {σ : Type} (x : Env) (px : Proxy σ) (ec : σ) (self : FuDellK2Pd)
    (v : Nat) (hv : v < 4294967296)
    (hpx : px.fu_dell_k2_ec_get_pd_version ec self.pd_subtype self.pd_instance = v) :
    (fu_dell_k2_pd_setup x px ec self).ret = true ∧
    (x.G_BYTE_ORDER = .G_LITTLE_ENDIAN →
      (fu_dell_k2_pd_setup x px ec self).self.parent_instance.version_raw =
        GUINT32_SWAP_LE_BE v) ∧
    (x.G_BYTE_ORDER = .G_BIG_ENDIAN →
      (fu_dell_k2_pd_setup x px ec self).self.parent_instance.version_raw = v) ∧
    (GUINT32_SWAP_LE_BE v % 256 = v / 16777216 % 256 ∧
      GUINT32_SWAP_LE_BE v / 256 % 256 = v / 65536 % 256 ∧
      GUINT32_SWAP_LE_BE v / 65536 % 256 = v / 256 % 256 ∧
      GUINT32_SWAP_LE_BE v / 16777216 % 256 = v % 256) ∧
    GUINT32_SWAP_LE_BE (GUINT32_SWAP_LE_BE v) = v := by
  have hmod : v % 4294967296 = v := Nat.mod_eq_of_lt hv
  refine ⟨setup_ret _ _ _ _, ?_, ?_, swap_bytes v, swap_swap v hv⟩
  · intro h
    rw [setup_version, hpx, h, hmod]
    rfl
  · intro h
    rw [setup_version, hpx, h, hmod]
    exact hmod

/-- Witness of C7 (amended) on the little-endian sample host: `0x01020304` is
stored as `0x04030201`. -/
theorem setup_version_from_be_witness :
    (0x01020304 < 4294967296) ∧
    sampleProxy.fu_dell_k2_ec_get_pd_version () 0 0 = 0x01020304 ∧
    sampleEnv.G_BYTE_ORDER = .G_LITTLE_ENDIAN ∧
    (fu_dell_k2_pd_setup sampleEnv sampleProxy ()
      (fu_dell_k2_pd_new 0 0)).self.parent_instance.version_raw = 0x04030201 :=
  ⟨by decide, rfl, rfl,
   (setup_version_from_be sampleEnv sampleProxy () (fu_dell_k2_pd_new 0 0) 0x01020304
      (by decide) rfl).2.1 rfl⟩

/-- C5: with a builder that rejects the attribute tuple, setup has set the
name and the logical id to the rendered name and filled the error slot, and it
returns `TRUE` where the claim requires failure. -/
theorem setup_returns_true_on_builder_failure :
    sampleEnvReject.fu_device_build_instance_id
      [("DOCKTYPE", 4), ("DOCKSKU", 1), ("DEVTYPE", 1), ("INST", 0)] "EC"
      ["DOCKTYPE", "DOCKSKU", "DEVTYPE", "INST"] = .error ⟨2, "instance id rejected"⟩ ∧
    (fu_dell_k2_pd_setup sampleEnvReject sampleProxy () (fu_dell_k2_pd_new 0 0)).ret = true ∧
    (fu_dell_k2_pd_setup sampleEnvReject sampleProxy () (fu_dell_k2_pd_new 0 0)).error =
      some ⟨2, "instance id rejected"⟩ ∧
    (fu_dell_k2_pd_setup sampleEnvReject sampleProxy ()
      (fu_dell_k2_pd_new 0 0)).self.parent_instance.name = some "PD" ∧
    (fu_dell_k2_pd_setup sampleEnvReject sampleProxy ()
      (fu_dell_k2_pd_new 0 0)).self.parent_instance.logical_id = some "PD" ∧
    (fu_dell_k2_pd_setup sampleEnvReject sampleProxy ()
      (fu_dell_k2_pd_new 0 0)).self.parent_instance.instance_ids = [] :=
  ⟨rfl, rfl, rfl, rfl, rfl, rfl⟩

/-! ## Write: artifact failure -/

/-- C6: when the firmware artifact cannot yield its bytes, write returns
failure with the artifact's error; no buffer was handed to the proxy, the proxy
state is the one before the call, no progress value was reported and the device
is unchanged. -/
theorem write_artifact_unavailable {σ : Type} (x : Env) (px : Proxy σ) (ec : σ)
    (self : FuDellK2Pd) (firmware : FuFirmware) (progress : FuProgress) (e : GError)
    (h : firmware.get_bytes = .error e) :
    (fu_dell_k2_pd_write x px ec self firmware progress).ret = false ∧
    (fu_dell_k2_pd_write x px ec self firmware progress).error = some e ∧
    (fu_dell_k2_pd_write x px ec self firmware progress).hid_log = [] ∧
    (fu_dell_k2_pd_write x px ec self firmware progress).ec = ec ∧
    (fu_dell_k2_pd_write x px ec self firmware progress).progress.percentage_full =
      progress.percentage_full ∧
    (fu_dell_k2_pd_write x px ec self firmware progress).self = self := by
  simp [fu_dell_k2_pd_write, h, fu_progress_set_id]

/-- Witness of C6 with the artifact whose bytes cannot be extracted and a proxy
that would fail its first write. -/
theorem write_artifact_unavailable_witness :
    brokenFirmware.get_bytes = .error ⟨4, "no image data"⟩ ∧
    (fu_dell_k2_pd_write sampleEnv (failingProxy 0) 0 (fu_dell_k2_pd_new 0 0) brokenFirmware
      freshProgress).ret = false ∧
    (fu_dell_k2_pd_write sampleEnv (failingProxy 0) 0 (fu_dell_k2_pd_new 0 0) brokenFirmware
      freshProgress).error = some ⟨4, "no image data"⟩ ∧
    (fu_dell_k2_pd_write sampleEnv (failingProxy 0) 0 (fu_dell_k2_pd_new 0 0) brokenFirmware
      freshProgress).hid_log = [] ∧
    (fu_dell_k2_pd_write sampleEnv (failingProxy 0) 0 (fu_dell_k2_pd_new 0 0) brokenFirmware
      freshProgress).ec = 0 ∧
    (fu_dell_k2_pd_write sampleEnv (failingProxy 0) 0 (fu_dell_k2_pd_new 0 0) brokenFirmware
      freshProgress).progress.percentage_full = freshProgress.percentage_full ∧
    (fu_dell_k2_pd_write sampleEnv (failingProxy 0) 0 (fu_dell_k2_pd_new 0 0) brokenFirmware
      freshProgress).self = fu_dell_k2_pd_new 0 0 :=
  ⟨rfl, write_artifact_unavailable sampleEnv (failingProxy 0) 0 (fu_dell_k2_pd_new 0 0)
    brokenFirmware freshProgress ⟨4, "no image data"⟩ rfl⟩

/-! ## Chunk array facts -/

theorem index_lt_of_lt_length (c : FuChunkArray) (hS : 0 < c.packet_sz) (i : Nat)
    (hi : i < fu_chunk_array_length c) : i * c.packet_sz < c.blob.length := by
  unfold fu_chunk_array_length at hi
  have hdm := Nat.div_add_mod c.blob.length c.packet_sz
  have hmul : c.packet_sz * (c.blob.length / c.packet_sz) =
      (c.blob.length / c.packet_sz) * c.packet_sz := Nat.mul_comm _ _
  by_cases hr : c.blob.length % c.packet_sz = 0
  · rw [if_pos hr] at hi
    have h1 : (i + 1) * c.packet_sz ≤ (c.blob.length / c.packet_sz) * c.packet_sz :=
      Nat.mul_le_mul_right _ (by omega)
    have h2 : (i + 1) * c.packet_sz = i * c.packet_sz + c.packet_sz := by ring
    omega
  · rw [if_neg hr] at hi
    have h1 : i * c.packet_sz ≤ (c.blob.length / c.packet_sz) * c.packet_sz :=
      Nat.mul_le_mul_right _ (by omega)
    omega

theorem length_mul_ge (c : FuChunkArray) (hS : 0 < c.packet_sz) :
    c.blob.length ≤ fu_chunk_array_length c * c.packet_sz := by
  unfold fu_chunk_array_length
  have hdm := Nat.div_add_mod c.blob.length c.packet_sz
  have hlt := Nat.mod_lt c.blob.length hS
  have hmul : c.packet_sz * (c.blob.length / c.packet_sz) =
      (c.blob.length / c.packet_sz) * c.packet_sz := Nat.mul_comm _ _
  by_cases hr : c.blob.length % c.packet_sz = 0
  · rw [if_pos hr, Nat.add_zero]; omega
  · rw [if_neg hr]
    have h2 : (c.blob.length / c.packet_sz + 1) * c.packet_sz =
        (c.blob.length / c.packet_sz) * c.packet_sz + c.packet_sz := by ring
    omega

theorem index_ok (c : FuChunkArray) (hS : 0 < c.packet_sz) (i : Nat)
    (hi : i < fu_chunk_array_length c) :
    fu_chunk_array_index c i = .ok (chunk_bytes c i) := by
  have h := index_lt_of_lt_length c hS i hi
  simp [chunk_bytes, fu_chunk_array_index, h]

theorem chunk_bytes_eq (c : FuChunkArray) (i : Nat) :
    chunk_bytes c i = (c.blob.drop (i * c.packet_sz)).take c.packet_sz := by
  unfold chunk_bytes fu_chunk_array_index
  by_cases h : i * c.packet_sz < c.blob.length
  · rw [if_pos h]
    simp only
    rw [List.take_eq_take, List.length_drop]
    omega
  · rw [if_neg h]
    simp only
    rw [List.drop_eq_nil_of_le (by omega)]
    simp

theorem chunk_bytes_length (c : FuChunkArray) (i : Nat) :
    (chunk_bytes c i).length = min c.packet_sz (c.blob.length - i * c.packet_sz) := by
  rw [chunk_bytes_eq, List.length_take, List.length_drop]

theorem chunks_flatten_take (c : FuChunkArray) (m : Nat) :
    ((List.range m).map (chunk_bytes c)).flatten = c.blob.take (m * c.packet_sz) := by
  induction m with
  | zero => simp
  | succ m ih =>
    rw [List.range_succ, List.map_append, List.flatten_append, ih]
    simp only [List.map_cons, List.map_nil, List.flatten_cons, List.flatten_nil, List.append_nil]
    rw [chunk_bytes_eq]
    have h : (m + 1) * c.packet_sz = m * c.packet_sz + c.packet_sz := by ring
    rw [h, List.take_add]

theorem chunks_flatten (c : FuChunkArray) (hS : 0 < c.packet_sz) :
    ((List.range (fu_chunk_array_length c)).map (chunk_bytes c)).flatten = c.blob := by
  rw [chunks_flatten_take]
  exact List.take_of_length_le (length_mul_ge c hS)

theorem length_eq_ceil (c : FuChunkArray) (hS : 0 < c.packet_sz) :
    fu_chunk_array_length c = ⌈(c.blob.length : ℚ) / (c.packet_sz : ℚ)⌉₊ := by
  have hSq : (0 : ℚ) < (c.packet_sz : ℚ) := by exact_mod_cast hS
  have hge := length_mul_ge c hS
  apply le_antisymm
  · by_contra hlt
    push_neg at hlt
    have h1 : ⌈(c.blob.length : ℚ) / (c.packet_sz : ℚ)⌉₊ * c.packet_sz < c.blob.length :=
      index_lt_of_lt_length c hS _ hlt
    have h2 : (c.blob.length : ℚ) / (c.packet_sz : ℚ) ≤
        (⌈(c.blob.length : ℚ) / (c.packet_sz : ℚ)⌉₊ : ℚ) := Nat.le_ceil _
    rw [div_le_iff₀ hSq] at h2
    have h3 : (c.blob.length : ℚ) ≤
        ((⌈(c.blob.length : ℚ) / (c.packet_sz : ℚ)⌉₊ * c.packet_sz : ℕ) : ℚ) := by
      push_cast; exact h2
    have h4 : c.blob.length ≤ ⌈(c.blob.length : ℚ) / (c.packet_sz : ℚ)⌉₊ * c.packet_sz := by
      exact_mod_cast h3
    omega
  · rw [Nat.ceil_le, div_le_iff₀ hSq]
    exact_mod_cast hge

/-! ## The write loop -/

theorem hid_write_eq {σ : Type} (px : Proxy σ) (ec : σ) (c : FuChunkArray) (i : Nat) :
    px.fu_dell_k2_ec_hid_write (hid_state px ec c i) (chunk_bytes c i) =
      (hid_state px ec c (i + 1), hid_outcome px ec c i) := rfl

theorem write_loop_ok {σ : Type} (px : Proxy σ) (self : FuDellK2Pd) (c : FuChunkArray)
    (hS : 0 < c.packet_sz) (ec : σ) (todo : Nat) :
    ∀ (i : Nat) (progress : FuProgress) (log : List GBytes),
      i + todo = fu_chunk_array_length c →
      (∀ j, i ≤ j → j < i + todo → hid_outcome px ec c j = none) →
      fu_dell_k2_pd_write_loop px self c todo i (hid_state px ec c i) progress log =
        { ret := true, error := none, self := self, ec := hid_state px ec c (i + todo),
          progress :=
            { progress with
              percentage_full := progress.percentage_full ++
                (List.range' i todo).map (fun j => (j + 1, fu_chunk_array_length c)) },
          hid_log := log ++ (List.range' i todo).map (chunk_bytes c) } := by
  induction todo with
  | zero =>
    intro i progress log _ _
    simp [fu_dell_k2_pd_write_loop]
  | succ n ih =>
    intro i progress log hlen hall
    have hidx := index_ok c hS i (by omega)
    have hout := hall i (Nat.le_refl _) (by omega)
    rw [fu_dell_k2_pd_write_loop, hidx]
    simp only [hid_write_eq, hout]
    rw [ih (i + 1) _ _ (by omega) (fun j h1 h2 => hall j (by omega) (by omega))]
    simp [fu_progress_set_percentage_full, List.range'_succ, Nat.add_assoc, Nat.add_comm 1 n]

theorem write_loop_fail {σ : Type} (px : Proxy σ) (self : FuDellK2Pd) (c : FuChunkArray)
    (hS : 0 < c.packet_sz) (ec : σ) (k : Nat) (e : GError)
    (hfail : hid_outcome px ec c k = some e) (todo : Nat) :
    ∀ (i : Nat) (progress : FuProgress) (log : List GBytes),
      i + todo = fu_chunk_array_length c → i ≤ k → k < i + todo →
      (∀ j, i ≤ j → j < k → hid_outcome px ec c j = none) →
      fu_dell_k2_pd_write_loop px self c todo i (hid_state px ec c i) progress log =
        { ret := false, error := some e, self := self, ec := hid_state px ec c (k + 1),
          progress :=
            { progress with
              percentage_full := progress.percentage_full ++
                (List.range' i (k - i)).map (fun j => (j + 1, fu_chunk_array_length c)) },
          hid_log := log ++ (List.range' i (k + 1 - i)).map (chunk_bytes c) } := by
  induction todo with
  | zero =>
    intro i progress log _ h1 h2
    omega
  | succ n ih =>
    intro i progress log hlen hik hk hall
    have hidx := index_ok c hS i (by omega)
    rw [fu_dell_k2_pd_write_loop, hidx]
    by_cases heq : i = k
    · subst heq
      simp only [hid_write_eq, hfail]
      simp
    · have hout := hall i (Nat.le_refl _) (by omega)
      simp only [hid_write_eq, hout]
      rw [ih (i + 1) _ _ (by omega) (by omega) (by omega)
        (fun j h1 h2 => hall j (by omega) h2)]
      have e1 : k - i = (k - (i + 1)) + 1 := by omega
      have e2 : k + 1 - i = (k + 1 - (i + 1)) + 1 := by omega
      rw [e1, e2]
      simp [fu_progress_set_percentage_full, List.range'_succ]

theorem write_eq_loop {σ : Type} (x : Env) (px : Proxy σ) (ec : σ) (self : FuDellK2Pd)
    (firmware : FuFirmware) (progress : FuProgress) (fw : GBytes)
    (hfw : firmware.get_bytes = .ok fw) :
    fu_dell_k2_pd_write x px ec self firmware progress =
      fu_dell_k2_pd_write_loop px self (write_chunks x self fw)
        (fu_chunk_array_length (write_chunks x self fw)) 0 (hid_state px ec (write_chunks x self fw) 0)
        (fu_progress_set_id progress "fu-dell-k2-pd.c:86") [] := by
  simp [fu_dell_k2_pd_write, hfw, write_chunks, hid_state]

theorem write_all_ok {σ : Type} (x : Env) (px : Proxy σ) (ec : σ) (self : FuDellK2Pd)
    (firmware : FuFirmware) (progress : FuProgress) (fw : GBytes)
    (hS : 0 < x.DELL_K2_EC_HID_DATA_PAGE_SZ) (hfw : firmware.get_bytes = .ok fw)
    (hall : ∀ k, k < fu_chunk_array_length (write_chunks x self fw) →
      hid_outcome px ec (write_chunks x self fw) k = none) :
    (fu_dell_k2_pd_write x px ec self firmware progress).ret = true ∧
    (fu_dell_k2_pd_write x px ec self firmware progress).error = none ∧
    (fu_dell_k2_pd_write x px ec self firmware progress).progress.percentage_full =
      progress.percentage_full ++ (List.range (fu_chunk_array_length (write_chunks x self fw))).map
        (fun i => (i + 1, fu_chunk_array_length (write_chunks x self fw))) ∧
    (fu_dell_k2_pd_write x px ec self firmware progress).hid_log =
      (List.range (fu_chunk_array_length (write_chunks x self fw))).map
        (chunk_bytes (write_chunks x self fw)) := by
  rw [write_eq_loop x px ec self firmware progress fw hfw,
    write_loop_ok px self (write_chunks x self fw) hS ec _ 0 _ _ (by omega)
      (fun j _ h => hall j (by omega))]
  simp [List.range_eq_range', fu_progress_set_id]

theorem write_first_fail {σ : Type} (x : Env) (px : Proxy σ) (ec : σ) (self : FuDellK2Pd)
    (firmware : FuFirmware) (progress : FuProgress) (fw : GBytes)
    (hS : 0 < x.DELL_K2_EC_HID_DATA_PAGE_SZ) (hfw : firmware.get_bytes = .ok fw)
    (k : Nat) (e : GError) (hk : k < fu_chunk_array_length (write_chunks x self fw))
    (hprev : ∀ j, j < k → hid_outcome px ec (write_chunks x self fw) j = none)
    (hfail : hid_outcome px ec (write_chunks x self fw) k = some e) :
    (fu_dell_k2_pd_write x px ec self firmware progress).ret = false ∧
    (fu_dell_k2_pd_write x px ec self firmware progress).error = some e ∧
    (fu_dell_k2_pd_write x px ec self firmware progress).progress.percentage_full =
      progress.percentage_full ++ (List.range k).map
        (fun i => (i + 1, fu_chunk_array_length (write_chunks x self fw))) ∧
    (fu_dell_k2_pd_write x px ec self firmware progress).hid_log =
      (List.range (k + 1)).map (chunk_bytes (write_chunks x self fw)) ∧
    (fu_dell_k2_pd_write x px ec self firmware progress).ec =
      hid_state px ec (write_chunks x self fw) (k + 1) := by
  rw [write_eq_loop x px ec self firmware progress fw hfw,
    write_loop_fail px self (write_chunks x self fw) hS ec k e hfail _ 0 _ _ (by omega)
      (by omega) (by omega) (fun j _ h => hprev j h)]
  simp [List.range_eq_range', fu_progress_set_id]

theorem write_ret_iff {σ : Type} (x : Env) (px : Proxy σ) (ec : σ) (self : FuDellK2Pd)
    (firmware : FuFirmware) (progress : FuProgress) (fw : GBytes)
    (hS : 0 < x.DELL_K2_EC_HID_DATA_PAGE_SZ) (hfw : firmware.get_bytes = .ok fw) :
    (fu_dell_k2_pd_write x px ec self firmware progress).ret = true ↔
      ∀ k, k < fu_chunk_array_length (write_chunks x self fw) →
        hid_outcome px ec (write_chunks x self fw) k = none := by
  constructor
  · intro hret
    by_contra hne
    push_neg at hne
    have hex : ∃ k, k < fu_chunk_array_length (write_chunks x self fw) ∧
        hid_outcome px ec (write_chunks x self fw) k ≠ none := hne
    classical
    have hk := Nat.find_spec hex
    have hmin : ∀ j, j < Nat.find hex → hid_outcome px ec (write_chunks x self fw) j = none := by
      intro j hj
      by_contra hj2
      exact Nat.find_min hex hj ⟨by omega, hj2⟩
    obtain ⟨e, he⟩ := Option.ne_none_iff_exists'.mp hk.2
    have hf := (write_first_fail x px ec self firmware progress fw hS hfw (Nat.find hex) e hk.1
      hmin he).1
    rw [hf] at hret
    exact Bool.noConfusion hret
  · intro hall
    exact (write_all_ok x px ec self firmware progress fw hS hfw hall).1

/-! ## Write: the claims -/

/-- C1: when the artifact's bytes can be extracted, write returns success if
and only if the proxy accepts the write of every chunk; and on success with `n`
chunks the progress object received exactly the reports (1,n), (2,n), ..., (n,n)
in that order, which are non-decreasing as fractions and end in (n,n). -/
theorem write_succeeds_iff_all_chunk_writes_succeed {σ : Type} (x : Env) (px : Proxy σ) (ec : σ)
    (self : FuDellK2Pd) (firmware : FuFirmware) (progress : FuProgress) (fw : GBytes)
    (hS : 0 < x.DELL_K2_EC_HID_DATA_PAGE_SZ) (hfw : firmware.get_bytes = .ok fw) :
    ((fu_dell_k2_pd_write x px ec self firmware progress).ret = true ↔
      ∀ k, k < fu_chunk_array_length (write_chunks x self fw) →
        hid_outcome px ec (write_chunks x self fw) k = none) ∧
    ((fu_dell_k2_pd_write x px ec self firmware progress).ret = true →
      (fu_dell_k2_pd_write x px ec self firmware progress).progress.percentage_full =
        progress.percentage_full ++
          (List.range (fu_chunk_array_length (write_chunks x self fw))).map
            (fun i => (i + 1, fu_chunk_array_length (write_chunks x self fw))) ∧
      List.Pairwise (fun a b : Nat × Nat => a.1 * b.2 ≤ b.1 * a.2)
        ((List.range (fu_chunk_array_length (write_chunks x self fw))).map
          (fun i => (i + 1, fu_chunk_array_length (write_chunks x self fw)))) ∧
      (0 < fu_chunk_array_length (write_chunks x self fw) →
        (fu_dell_k2_pd_write x px ec self firmware progress).progress.percentage_full.getLast? =
          some (fu_chunk_array_length (write_chunks x self fw),
            fu_chunk_array_length (write_chunks x self fw)))) := by
  have hiff := write_ret_iff x px ec self firmware progress fw hS hfw
  refine ⟨hiff, fun hret => ?_⟩
  have hok := write_all_ok x px ec self firmware progress fw hS hfw (hiff.mp hret)
  refine ⟨hok.2.2.1, ?_, ?_⟩
  · rw [List.pairwise_map]
    refine (List.pairwise_lt_range _).imp ?_
    intro a b hab
    exact Nat.mul_le_mul_right _ (by omega)
  · intro hn
    rw [hok.2.2.1]
    obtain ⟨m, hm⟩ : ∃ m, fu_chunk_array_length (write_chunks x self fw) = m + 1 :=
      ⟨_, (Nat.succ_pred_eq_of_pos hn).symm⟩
    rw [hm, List.range_succ]
    simp

/-- Witness of C1: seven firmware bytes, a three-byte header, page size 4 and a
proxy that accepts every write: success with reports (1,3), (2,3), (3,3). -/
theorem write_succeeds_iff_all_chunk_writes_succeed_witness :
    0 < sampleEnv.DELL_K2_EC_HID_DATA_PAGE_SZ ∧
    sampleFirmware.get_bytes = .ok [1, 2, 3, 4, 5, 6, 7] ∧
    fu_chunk_array_length (write_chunks sampleEnv (fu_dell_k2_pd_new 0 0) [1, 2, 3, 4, 5, 6, 7]) = 3 ∧
    (fu_dell_k2_pd_write sampleEnv sampleProxy () (fu_dell_k2_pd_new 0 0) sampleFirmware
      freshProgress).ret = true ∧
    (fu_dell_k2_pd_write sampleEnv sampleProxy () (fu_dell_k2_pd_new 0 0) sampleFirmware
      freshProgress).progress.percentage_full = [(1, 3), (2, 3), (3, 3)] :=
  have h := write_succeeds_iff_all_chunk_writes_succeed sampleEnv sampleProxy ()
    (fu_dell_k2_pd_new 0 0) sampleFirmware freshProgress [1, 2, 3, 4, 5, 6, 7] (by decide) rfl
  ⟨by decide, rfl, by decide, h.1.mpr (fun _ _ => rfl), (h.2 (h.1.mpr (fun _ _ => rfl))).1⟩

/-- C2: if, of the `n` chunks, the proxy write of chunk `k` (0-based, `k < n`)
is the first to fail, write returns failure with the proxy's error, the
progress object has received exactly the `k` reports (1,n), ..., (k,n), exactly
the chunks 0..k were handed to the proxy in that order (`k + 1` buffers, none
with a greater index, none twice), and the proxy is left in the state after
those `k + 1` writes. -/
theorem write_aborts_at_first_failed_chunk {σ : Type} (x : Env) (px : Proxy σ) (ec : σ)
    (self : FuDellK2Pd) (firmware : FuFirmware) (progress : FuProgress) (fw : GBytes)
    (hS : 0 < x.DELL_K2_EC_HID_DATA_PAGE_SZ) (hfw : firmware.get_bytes = .ok fw)
    (k : Nat) (e : GError) (hk : k < fu_chunk_array_length (write_chunks x self fw))
    (hprev : ∀ j, j < k → hid_outcome px ec (write_chunks x self fw) j = none)
    (hfail : hid_outcome px ec (write_chunks x self fw) k = some e) :
    (fu_dell_k2_pd_write x px ec self firmware progress).ret = false ∧
    (fu_dell_k2_pd_write x px ec self firmware progress).error = some e ∧
    (fu_dell_k2_pd_write x px ec self firmware progress).progress.percentage_full =
      progress.percentage_full ++ (List.range k).map
        (fun i => (i + 1, fu_chunk_array_length (write_chunks x self fw))) ∧
    (fu_dell_k2_pd_write x px ec self firmware progress).hid_log =
      (List.range (k + 1)).map (chunk_bytes (write_chunks x self fw)) ∧
    (fu_dell_k2_pd_write x px ec self firmware progress).hid_log.length = k + 1 ∧
    (fu_dell_k2_pd_write x px ec self firmware progress).ec =
      hid_state px ec (write_chunks x self fw) (k + 1) := by
  obtain ⟨h1, h2, h3, h4, h5⟩ :=
    write_first_fail x px ec self firmware progress fw hS hfw k e hk hprev hfail
  refine ⟨h1, h2, h3, h4, ?_, h5⟩
  rw [h4]
  simp

/-- Witness of C2: three chunks, the proxy fails the write of chunk 1: failure,
one progress report (1,3), chunks 0 and 1 handed over, chunk 2 never. -/
theorem write_aborts_at_first_failed_chunk_witness :
    0 < sampleEnv.DELL_K2_EC_HID_DATA_PAGE_SZ ∧
    sampleFirmware.get_bytes = .ok [1, 2, 3, 4, 5, 6, 7] ∧
    1 < fu_chunk_array_length (write_chunks sampleEnv (fu_dell_k2_pd_new 0 0) [1, 2, 3, 4, 5, 6, 7]) ∧
    hid_outcome (failingProxy 1) 0
      (write_chunks sampleEnv (fu_dell_k2_pd_new 0 0) [1, 2, 3, 4, 5, 6, 7]) 1 =
        some ⟨3, "hid write failed"⟩ ∧
    (fu_dell_k2_pd_write sampleEnv (failingProxy 1) 0 (fu_dell_k2_pd_new 0 0) sampleFirmware
      freshProgress).ret = false ∧
    (fu_dell_k2_pd_write sampleEnv (failingProxy 1) 0 (fu_dell_k2_pd_new 0 0) sampleFirmware
      freshProgress).error = some ⟨3, "hid write failed"⟩ ∧
    (fu_dell_k2_pd_write sampleEnv (failingProxy 1) 0 (fu_dell_k2_pd_new 0 0) sampleFirmware
      freshProgress).progress.percentage_full = [(1, 3)] ∧
    (fu_dell_k2_pd_write sampleEnv (failingProxy 1) 0 (fu_dell_k2_pd_new 0 0) sampleFirmware
      freshProgress).hid_log = [[0xAB, 1, 1, 1], [2, 3, 4, 5]] ∧
    (fu_dell_k2_pd_write sampleEnv (failingProxy 1) 0 (fu_dell_k2_pd_new 0 0) sampleFirmware
      freshProgress).hid_log.length = 2 ∧
    (fu_dell_k2_pd_write sampleEnv (failingProxy 1) 0 (fu_dell_k2_pd_new 0 0) sampleFirmware
      freshProgress).ec = 2 :=
  ⟨by decide, rfl, by decide, rfl,
   write_aborts_at_first_failed_chunk sampleEnv (failingProxy 1) 0 (fu_dell_k2_pd_new 0 0)
     sampleFirmware freshProgress [1, 2, 3, 4, 5, 6, 7] (by decide) rfl 1 ⟨3, "hid write failed"⟩
     (by decide) (fun j hj => by have h0 : j = 0 := by omega
                                 subst h0
                                 rfl) rfl⟩

theorem write_log_of_ret {σ : Type} (x : Env) (px : Proxy σ) (ec : σ) (self : FuDellK2Pd)
    (firmware : FuFirmware) (progress : FuProgress) (fw : GBytes)
    (hS : 0 < x.DELL_K2_EC_HID_DATA_PAGE_SZ) (hfw : firmware.get_bytes = .ok fw)
    (hret : (fu_dell_k2_pd_write x px ec self firmware progress).ret = true) :
    (fu_dell_k2_pd_write x px ec self firmware progress).hid_log =
      (List.range (fu_chunk_array_length (write_chunks x self fw))).map
        (chunk_bytes (write_chunks x self fw)) :=
  (write_all_ok x px ec self firmware progress fw hS hfw
    ((write_ret_iff x px ec self firmware progress fw hS hfw).mp hret)).2.2.2

/-- C3: on a successful write the buffers handed to the proxy are, in call
order, the chunks of index 0, 1, ..., n-1 of the wrapped buffer, each once, and
their concatenation is exactly the buffer the packager produced for the
firmware bytes, device type PD and the device's `pd_identifier`. -/
theorem write_log_reconstructs_wrapped_buffer {σ : Type} (x : Env) (px : Proxy σ) (ec : σ)
    (self : FuDellK2Pd) (firmware : FuFirmware) (progress : FuProgress) (fw : GBytes)
    (hS : 0 < x.DELL_K2_EC_HID_DATA_PAGE_SZ) (hfw : firmware.get_bytes = .ok fw)
    (hret : (fu_dell_k2_pd_write x px ec self firmware progress).ret = true) :
    (fu_dell_k2_pd_write x px ec self firmware progress).hid_log.length =
      fu_chunk_array_length (write_chunks x self fw) ∧
    (∀ i, i < fu_chunk_array_length (write_chunks x self fw) →
      fu_chunk_array_index (write_chunks x self fw) i =
        .ok ((fu_dell_k2_pd_write x px ec self firmware progress).hid_log.getD i [])) ∧
    (fu_dell_k2_pd_write x px ec self firmware progress).hid_log.flatten =
      x.fu_dell_k2_ec_hid_fwup_pkg_new fw (x.DELL_K2_EC_DEV_TYPE_PD % 256) self.pd_identifier := by
  have hlog := write_log_of_ret x px ec self firmware progress fw hS hfw hret
  refine ⟨?_, ?_, ?_⟩
  · rw [hlog]; simp
  · intro i hi
    rw [hlog, index_ok _ hS i hi]
    simp [List.getD_eq_getElem?_getD, hi]
  · rw [hlog, chunks_flatten _ hS]
    rfl

/-- Witness of C3: seven firmware bytes behind the three-byte sample header,
page size 4: the three buffers written concatenate to the wrapped buffer. -/
theorem write_log_reconstructs_wrapped_buffer_witness :
    0 < sampleEnv.DELL_K2_EC_HID_DATA_PAGE_SZ ∧
    sampleFirmware.get_bytes = .ok [1, 2, 3, 4, 5, 6, 7] ∧
    (fu_dell_k2_pd_write sampleEnv sampleProxy () (fu_dell_k2_pd_new 0 0) sampleFirmware
      freshProgress).ret = true ∧
    (fu_dell_k2_pd_write sampleEnv sampleProxy () (fu_dell_k2_pd_new 0 0) sampleFirmware
      freshProgress).hid_log = [[0xAB, 1, 1, 1], [2, 3, 4, 5], [6, 7]] ∧
    (fu_dell_k2_pd_write sampleEnv sampleProxy () (fu_dell_k2_pd_new 0 0) sampleFirmware
      freshProgress).hid_log.flatten = [0xAB, 1, 1, 1, 2, 3, 4, 5, 6, 7] :=
  ⟨by decide, rfl, rfl, rfl,
   (write_log_reconstructs_wrapped_buffer sampleEnv sampleProxy () (fu_dell_k2_pd_new 0 0)
     sampleFirmware freshProgress [1, 2, 3, 4, 5, 6, 7] (by decide) rfl rfl).2.2⟩

/-- C4: with wrapped-buffer length `L` and page size `S > 0`, a successful write
hands `ceil (L / S)` buffers to the proxy; every buffer but the last has length
`S`, the last has length `L - S * (count - 1)`, which is `S` when `L` is a
non-zero multiple of `S`; and `L = 0` gives no buffer at all. -/
theorem write_chunk_count_and_lengths {σ : Type} (x : Env) (px : Proxy σ) (ec : σ)
    (self : FuDellK2Pd) (firmware : FuFirmware) (progress : FuProgress) (fw : GBytes)
    (L S : Nat) (hS : 0 < S) (hpage : x.DELL_K2_EC_HID_DATA_PAGE_SZ = S)
    (hL : (x.fu_dell_k2_ec_hid_fwup_pkg_new fw (x.DELL_K2_EC_DEV_TYPE_PD % 256)
      self.pd_identifier).length = L)
    (hfw : firmware.get_bytes = .ok fw)
    (hret : (fu_dell_k2_pd_write x px ec self firmware progress).ret = true) :
    (fu_dell_k2_pd_write x px ec self firmware progress).hid_log.length = ⌈(L : ℚ) / (S : ℚ)⌉₊ ∧
    (∀ i, i + 1 < (fu_dell_k2_pd_write x px ec self firmware progress).hid_log.length →
      ((fu_dell_k2_pd_write x px ec self firmware progress).hid_log.getD i []).length = S) ∧
    (0 < (fu_dell_k2_pd_write x px ec self firmware progress).hid_log.length →
      ((fu_dell_k2_pd_write x px ec self firmware progress).hid_log.getD
        ((fu_dell_k2_pd_write x px ec self firmware progress).hid_log.length - 1) []).length =
        L - S * ((fu_dell_k2_pd_write x px ec self firmware progress).hid_log.length - 1)) ∧
    (0 < L → L % S = 0 →
      ((fu_dell_k2_pd_write x px ec self firmware progress).hid_log.getD
        ((fu_dell_k2_pd_write x px ec self firmware progress).hid_log.length - 1) []).length = S) ∧
    (L = 0 → (fu_dell_k2_pd_write x px ec self firmware progress).hid_log = []) := by
  subst hpage
  have hlog := write_log_of_ret x px ec self firmware progress fw hS hfw hret
  have hpk : (write_chunks x self fw).packet_sz = x.DELL_K2_EC_HID_DATA_PAGE_SZ := rfl
  have hbl : (write_chunks x self fw).blob.length = L := hL
  have hS' : 0 < (write_chunks x self fw).packet_sz := hS
  have hlen : (fu_dell_k2_pd_write x px ec self firmware progress).hid_log.length =
      fu_chunk_array_length (write_chunks x self fw) := by rw [hlog]; simp
  have hget : ∀ i, i < fu_chunk_array_length (write_chunks x self fw) →
      ((fu_dell_k2_pd_write x px ec self firmware progress).hid_log.getD i []).length =
        min x.DELL_K2_EC_HID_DATA_PAGE_SZ (L - i * x.DELL_K2_EC_HID_DATA_PAGE_SZ) := by
    intro i hi
    rw [hlog]
    simp only [List.getD_eq_getElem?_getD, List.getElem?_map, List.getElem?_range hi,
      Option.map_some', Option.getD_some]
    rw [chunk_bytes_length, hpk, hbl]
  have hge := length_mul_ge (write_chunks x self fw) hS'
  rw [hpk, hbl] at hge
  have hlast : 0 < fu_chunk_array_length (write_chunks x self fw) →
      ((fu_dell_k2_pd_write x px ec self firmware progress).hid_log.getD
        (fu_chunk_array_length (write_chunks x self fw) - 1) []).length =
        L - x.DELL_K2_EC_HID_DATA_PAGE_SZ * (fu_chunk_array_length (write_chunks x self fw) - 1) := by
    intro hn
    rw [hget _ (by omega)]
    obtain ⟨m, hm⟩ : ∃ m, fu_chunk_array_length (write_chunks x self fw) = m + 1 :=
      ⟨_, (Nat.succ_pred_eq_of_pos hn).symm⟩
    rw [hm] at hge ⊢
    have e1 : (m + 1) * x.DELL_K2_EC_HID_DATA_PAGE_SZ =
        m * x.DELL_K2_EC_HID_DATA_PAGE_SZ + x.DELL_K2_EC_HID_DATA_PAGE_SZ := by ring
    have e2 : x.DELL_K2_EC_HID_DATA_PAGE_SZ * (m + 1 - 1) = m * x.DELL_K2_EC_HID_DATA_PAGE_SZ := by
      rw [Nat.add_sub_cancel, Nat.mul_comm]
    rw [e2, Nat.add_sub_cancel]
    omega
  refine ⟨?_, ?_, ?_, ?_, ?_⟩
  · rw [hlen, length_eq_ceil _ hS', hpk, hbl]
  · intro i hi
    rw [hlen] at hi
    rw [hget i (by omega)]
    have h1 := index_lt_of_lt_length (write_chunks x self fw) hS' (i + 1) hi
    rw [hpk, hbl] at h1
    have e1 : (i + 1) * x.DELL_K2_EC_HID_DATA_PAGE_SZ =
        i * x.DELL_K2_EC_HID_DATA_PAGE_SZ + x.DELL_K2_EC_HID_DATA_PAGE_SZ := by ring
    omega
  · intro hn
    rw [hlen] at hn ⊢
    exact hlast hn
  · intro hpos hmod
    have hn : fu_chunk_array_length (write_chunks x self fw) =
        L / x.DELL_K2_EC_HID_DATA_PAGE_SZ := by
      unfold fu_chunk_array_length
      rw [hpk, hbl, if_pos hmod, Nat.add_zero]
    have hdm := Nat.div_add_mod L x.DELL_K2_EC_HID_DATA_PAGE_SZ
    rw [hmod, Nat.add_zero] at hdm
    have hq : 0 < L / x.DELL_K2_EC_HID_DATA_PAGE_SZ := by
      rcases Nat.eq_zero_or_pos (L / x.DELL_K2_EC_HID_DATA_PAGE_SZ) with h0 | h0
      · rw [h0, Nat.mul_zero] at hdm; omega
      · exact h0
    rw [hlen, hlast (by omega), hn]
    obtain ⟨m, hm⟩ : ∃ m, L / x.DELL_K2_EC_HID_DATA_PAGE_SZ = m + 1 :=
      ⟨_, (Nat.succ_pred_eq_of_pos hq).symm⟩
    rw [hm] at hdm ⊢
    have e1 : x.DELL_K2_EC_HID_DATA_PAGE_SZ * (m + 1) =
        x.DELL_K2_EC_HID_DATA_PAGE_SZ * m + x.DELL_K2_EC_HID_DATA_PAGE_SZ := by ring
    rw [Nat.add_sub_cancel]
    omega
  · intro h0
    have hn : fu_chunk_array_length (write_chunks x self fw) = 0 := by
      unfold fu_chunk_array_length
      rw [hbl, h0]
      simp
    rw [hlog, hn]
    rfl

/-- Witness of C4: wrapped length 10 and page size 4 give 3 buffers of lengths
4, 4 and 2. -/
theorem write_chunk_count_and_lengths_witness :
    (0 < 4) ∧
    sampleEnv.DELL_K2_EC_HID_DATA_PAGE_SZ = 4 ∧
    (sampleEnv.fu_dell_k2_ec_hid_fwup_pkg_new [1, 2, 3, 4, 5, 6, 7]
      (sampleEnv.DELL_K2_EC_DEV_TYPE_PD % 256) (fu_dell_k2_pd_new 0 0).pd_identifier).length = 10 ∧
    (fu_dell_k2_pd_write sampleEnv sampleProxy () (fu_dell_k2_pd_new 0 0) sampleFirmware
      freshProgress).ret = true ∧
    (fu_dell_k2_pd_write sampleEnv sampleProxy () (fu_dell_k2_pd_new 0 0) sampleFirmware
      freshProgress).hid_log.length = ⌈((10 : ℕ) : ℚ) / ((4 : ℕ) : ℚ)⌉₊ ∧
    (fu_dell_k2_pd_write sampleEnv sampleProxy () (fu_dell_k2_pd_new 0 0) sampleFirmware
      freshProgress).hid_log.length = 3 ∧
    (fu_dell_k2_pd_write sampleEnv sampleProxy () (fu_dell_k2_pd_new 0 0) sampleFirmware
      freshProgress).hid_log.map List.length = [4, 4, 2] :=
  ⟨by decide, rfl, rfl, rfl,
   (write_chunk_count_and_lengths sampleEnv sampleProxy () (fu_dell_k2_pd_new 0 0) sampleFirmware
     freshProgress [1, 2, 3, 4, 5, 6, 7] 10 4 (by decide) rfl rfl rfl rfl).1, rfl, rfl⟩

/-- The spec's scenario at the chunk array: 1000 bytes in pages of 64 give 16
chunks, chunk 0 and chunk 14 of 64 bytes and chunk 15 of 40, and nothing at
index 16. -/
theorem chunk_scenario_1000_by_64 :
    fu_chunk_array_length (fu_chunk_array_new_from_bytes (List.replicate 1000 0) 0 64) = 16 ∧
    (chunk_bytes (fu_chunk_array_new_from_bytes (List.replicate 1000 0) 0 64) 0).length = 64 ∧
    (chunk_bytes (fu_chunk_array_new_from_bytes (List.replicate 1000 0) 0 64) 14).length = 64 ∧
    (chunk_bytes (fu_chunk_array_new_from_bytes (List.replicate 1000 0) 0 64) 15).length = 40 ∧
    fu_chunk_array_index (fu_chunk_array_new_from_bytes (List.replicate 1000 0) 0 64) 16 =
      .error ⟨1, "index invalid"⟩ := by
  have hlen : (fu_chunk_array_new_from_bytes (List.replicate 1000 0) 0 64).blob.length = 1000 :=
    List.length_replicate 1000 _
  have hsz : (fu_chunk_array_new_from_bytes (List.replicate 1000 0) 0 64).packet_sz = 64 := rfl
  refine ⟨?_, ?_, ?_, ?_, ?_⟩
  · rw [fu_chunk_array_length, hlen, hsz]; rfl
  · rw [chunk_bytes_length, hlen, hsz]; rfl
  · rw [chunk_bytes_length, hlen, hsz]; rfl
  · rw [chunk_bytes_length, hlen, hsz]; rfl
  · rw [fu_chunk_array_index, hlen, hsz]; rfl

end DellK2Pd
